import Mathlib

/-!
Shallow embedding of the work-boots channel core from src/src/index.js:
the WorkBoots controller class, the Socks peer class, the synthesized
mock peer from the WorkBoots constructor, and the platform worker
channel between the two sides.

The modelled environment is the browser one (isBrowser true, the
Worker facility available): the worker handle exposes a single
assignable onmessage slot, and posting a value x to one side delivers
an event object with a data field holding x to the handler registered
on the other side.  The worker handle itself is an external
collaborator of the core (spec sections 1, 5 and 6), so its
order-preserving event delivery is modelled from the spec; everything
else below is translated directly from index.js.
-/

/-- JavaScript values, as far as the channel core inspects them. -/
inductive JSVal where
  | str : String → JSVal
  | num : Int → JSVal
  | boolv : Bool → JSVal
  | undefv : JSVal
  | nullv : JSVal
  | arr : List JSVal → JSVal
  | obj : List (String × JSVal) → JSVal

/-- First binding of a key in a JavaScript object field list. -/
def lookupField : List (String × JSVal) → String → Option JSVal
  | [], _ => none
  | (k, v) :: rest, key => if k = key then some v else lookupField rest key

/-- Property read v.key with optional-chaining semantics: undefined on
non-objects and on missing keys (primitives have no data property). -/
def getField (v : JSVal) (key : String) : JSVal :=
  match v with
  | .obj fs => (lookupField fs key).getD .undefv
  | _ => .undefv

/-- JavaScript truthiness. -/
def truthy : JSVal → Bool
  | .str s => s ≠ ""
  | .num n => n ≠ 0
  | .boolv b => b
  | .undefv => false
  | .nullv => false
  | .arr _ => true
  | .obj _ => true

/-- The envelope constructor, the object literal with a data field. -/
def mkData (p : JSVal) : JSVal := .obj [("data", p)]

/-- The readiness sentinel literal "socks loaded". -/
def sentinel : JSVal := .str "socks loaded"

/-- The strict comparison of a value against the sentinel literal. -/
def isSentinel : JSVal → Bool
  | .str s => s = "socks loaded"
  | _ => false

/-- The expression transfer.length > 0 ? transfer : undefined. -/
def transferArg (transfer : List JSVal) : JSVal :=
  if transfer.length > 0 then JSVal.arr transfer else JSVal.undefv

/-- Spreading a filtered argument list into postMessage: the filter
keeps truthy arguments and the first surviving one is the message. -/
def firstTruthy (args : List JSVal) : JSVal := (args.filter truthy).headD .undefv

/-- WorkBoots.postMessage envelope computation: the expression
(quote data in data quote) ? data : brace data brace.  The in operator
throws a TypeError on primitives, null and undefined. -/
def bootsWrap : JSVal → Except String JSVal
  | .obj fs => .ok (if (lookupField fs "data").isSome then .obj fs else mkData (.obj fs))
  | .arr xs => .ok (mkData (.arr xs))
  | _ => .error "TypeError: cannot use in operator on a non-object"

/-- Socks.postMessage envelope computation: guarded by typeof data
being object; note typeof null is object, so the in operator still
throws on null, while primitives are wrapped without a throw. -/
def socksWrap : JSVal → Except String JSVal
  | .obj fs => .ok (if (lookupField fs "data").isSome then .obj fs else mkData (.obj fs))
  | .nullv => .error "TypeError: cannot use in operator on null"
  | v => .ok (mkData v)

/-- Socks.postMessage envelope computation on non-throwing inputs. -/
def socksWrapOk : JSVal → JSVal
  | .obj fs => if (lookupField fs "data").isSome then .obj fs else mkData (.obj fs)
  | v => mkData v

/-- A controller-side message callback: either the internal readiness
listener velcroAndLaces from the WorkBoots constructor, or an
application-registered callback (modelled as a recorder). -/
inductive BCb where
  | velcro
  | app

/-- The joint state of one channel: the WorkBoots controller fields
(prefix b), the Socks peer fields (prefix s), and the two pending
event queues of the platform worker channel. -/
structure Sys where
  bSupportsWorker : Bool := false
  bWorker : Bool := false
  bWorkerOnmsg : Option BCb := none
  toWorker : List JSVal := []
  bSocksBound : Bool := false
  bMock : Bool := false
  bIsReady : Bool := false
  bCallback : Option BCb := none
  bReceived : List (List JSVal) := []
  bResolved : Bool := false
  bRejection : Option String := none
  bAppTrace : List (List JSVal) := []
  sSelf : Bool := false
  sSelfOnmsg : Bool := false
  toBoots : List JSVal := []
  sPosts : List (JSVal × JSVal × List JSVal) := []
  sIsReady : Bool := false
  sSentReady : Bool := false
  sBootsBound : Bool := false
  sCallback : Bool := false
  sAppTrace : List (List JSVal) := []

/-- Invoking the controller message callback with an argument list:
velcroAndLaces resolves the ready promise on the sentinel envelope and
queues every other message in receivedBeforeReady; an application
callback records the call. -/
def invokeBCb (st : Sys) (cb : BCb) (args : List JSVal) : Sys :=
  match cb with
  | .velcro =>
    if isSentinel (getField (args.headD .undefv) "data") then { st with bResolved := true }
    else { st with bReceived := st.bReceived ++ [args] }
  | .app => { st with bAppTrace := st.bAppTrace ++ [args] }

/-- The call this.onMessageCallback(args): a TypeError when no
callback was ever registered. -/
def invokeBootsCallback (st : Sys) (args : List JSVal) : Except String Sys :=
  match st.bCallback with
  | none => .error "TypeError: this.onMessageCallback is not a function"
  | some cb => .ok (invokeBCb st cb args)

/-- WorkBoots.onMessageLocal: wraps the received value into a fresh
envelope and hands it to the current callback; a hard failure when no
callback is registered. -/
def boots_onMessageLocal (st : Sys) (data _origin : JSVal) (_transfer : List JSVal) :
    Except String Sys :=
  match st.bCallback with
  | some cb => .ok (invokeBCb st cb [mkData data])
  | none => .error "onMessageLocal should not be called without onMessageCallback defined"

/-- Socks.onMessageLocal: hands the received value to the callback
unchanged; a hard failure when no callback is registered. -/
def socks_onMessageLocal (st : Sys) (data _origin : JSVal) (_transfer : List JSVal) :
    Except String Sys :=
  if st.sCallback then .ok { st with sAppTrace := st.sAppTrace ++ [[data]] }
  else .error "onMessageLocal should not be called without onMessageCallback defined"

/-- The onMessageLocal of the synthesized mock socks from the
WorkBoots constructor: delivers an envelope rebuilt around the data
field of the incoming message and drops the message silently when no
callback is registered. -/
def mock_onMessageLocal (st : Sys) (message : JSVal) : Sys :=
  match st.bCallback with
  | some cb => invokeBCb st cb [mkData (getField message "data")]
  | none => st

/-- Socks.isWorkerSupported in the browser environment with the
Worker facility available: true exactly when the host reference is
still held. -/
def socks_isWorkerSupported (st : Sys) : Bool := st.sSelf

/-- WorkBoots.postMessage: before readiness, a synchronous forward to
the current callback; after readiness, envelope computation and then
dispatch to the worker handle, the bound peer, or nowhere. -/
def boots_postMessage (st : Sys) (data origin : JSVal) (transfer : List JSVal) :
    Except String Sys :=
  if !st.bIsReady then
    invokeBootsCallback st [data, origin, .arr transfer]
  else do
    let message ← bootsWrap data
    if st.bSupportsWorker && st.bWorker then
      .ok { st with toWorker := st.toWorker ++ [firstTruthy [data, transferArg transfer]] }
    else if st.bSocksBound then
      if st.bMock then .ok (mock_onMessageLocal st message)
      else socks_onMessageLocal st message (.arr transfer) []
    else .ok st

/-- Socks.postMessage: before readiness, the argument tuple is pushed
onto postsBeforeReady; after readiness, envelope computation and then
dispatch to the host send primitive or to the bound controller. -/
def socks_postMessage (st : Sys) (data origin : JSVal) (transfer : List JSVal) :
    Except String Sys :=
  if !st.sIsReady then
    .ok { st with sPosts := st.sPosts ++ [(data, origin, transfer)] }
  else do
    let message ← socksWrap data
    if socks_isWorkerSupported st then
      .ok { st with toBoots := st.toBoots ++ [firstTruthy [data, origin, transferArg transfer]] }
    else if st.sBootsBound then
      boots_onMessageLocal st message origin transfer
    else .error "TypeError: this.boots is undefined"

/-- The forEach loop of Socks.processReadyMessages: re-posts each
queued argument tuple in order through Socks.postMessage. -/
def drainPosts : Sys → List (JSVal × JSVal × List JSVal) → Except String Sys
  | st, [] => .ok st
  | st, t :: rest => do
    let st2 ← socks_postMessage st t.1 t.2.1 t.2.2
    drainPosts st2 rest

/-- Socks.processReadyMessages: drains postsBeforeReady only when the
sentinel was recorded as sent, then clears the queue. -/
def socks_processReadyMessages (st : Sys) : Except String Sys :=
  if st.sSentReady then do
    let st2 ← drainPosts st st.sPosts
    .ok { st2 with sPosts := [] }
  else .ok st

/-- Socks.ready: sends the sentinel through the host when remote
capable, directly to the adopted controller when adopted, or not at
all; then marks isReady and processes the queue. -/
def socks_ready (st : Sys) : Except String Sys := do
  let st1 ←
    if socks_isWorkerSupported st then do
      let st2 ← socks_postMessage st sentinel .undefv []
      pure { st2 with sSentReady := true }
    else if st.sBootsBound then do
      let st2 ← boots_onMessageLocal st sentinel .undefv []
      pure { st2 with sSentReady := true }
    else pure st
  socks_processReadyMessages { st1 with sIsReady := true }

/-- Socks.enterBoots: binds the controller, replays ready when the
ready call raced ahead of adoption, captures a pre-existing host
message handler as the local callback, and discards the host
reference. -/
def socks_enterBoots (st : Sys) : Except String Sys := do
  let st1 := { st with sBootsBound := true }
  let st2 ← if st1.sIsReady && !st1.sSentReady then socks_ready st1 else pure st1
  let st3 := if st2.sSelf && st2.sSelfOnmsg then { st2 with sCallback := true } else st2
  pure { st3 with sSelf := false, sSelfOnmsg := false }

/-- Socks.onMessage: attaches the callback to the host onmessage slot
when remote capable, otherwise stores it as the local callback. -/
def socks_onMessage (st : Sys) : Sys :=
  if socks_isWorkerSupported st then { st with sSelfOnmsg := true }
  else { st with sCallback := true }

/-- The forEach replay loop of WorkBoots.onMessage over
receivedBeforeReady, guarded per element by the current callback;
the queue itself is not cleared by the source. -/
def replayReceived : Sys → List (List JSVal) → Sys
  | st, [] => st
  | st, m :: rest =>
    match st.bCallback with
    | some cb => replayReceived (invokeBCb st cb m) rest
    | none => replayReceived st rest

/-- WorkBoots.onMessage: replaces the active callback, mirrors it onto
the worker handle onmessage slot when a worker exists, and replays the
queued pre-ready messages. -/
def boots_onMessage (st : Sys) (cb : BCb) : Sys :=
  let st1 := { st with bCallback := some cb }
  let st2 := if st1.bWorker then { st1 with bWorkerOnmsg := some cb } else st1
  if st2.bReceived.isEmpty then st2 else replayReceived st2 st2.bReceived

/-- Socks.terminate: the termination callback and the host terminate
primitive are outside the modelled state and both calls are guarded in
the source, so the modelled effect is a successful no-op. -/
def socks_terminate (st : Sys) : Except String Sys := .ok st

/-- WorkBoots.terminate: every dispatch branch is guarded by presence
and typeof checks in the source, so no branch can throw. -/
def boots_terminate (st : Sys) : Except String Sys :=
  if st.bSupportsWorker && st.bWorker then .ok st
  else if st.bSocksBound then socks_terminate st
  else .ok st

/-- Modelled from the spec (sections 5 and 6): the platform worker
channel, absent from src as an external collaborator, delivers posted
values in order as event objects with a data field to the handler
registered on the worker handle, and drops events that arrive while no
handler is registered. -/
def deliverToBoots (st : Sys) : Sys :=
  match st.toBoots with
  | [] => st
  | x :: rest =>
    let st1 := { st with toBoots := rest }
    match st1.bWorkerOnmsg with
    | none => st1
    | some cb => invokeBCb st1 cb [mkData x]

/-- The observable state of the peer module loaded by the fallback
path at the moment the asynchronous load completes: its module body
may already have registered a callback and called ready. -/
structure LoadedSocks where
  isReady : Bool := false
  sentReady : Bool := false
  hasCallback : Bool := false
  posts : List (JSVal × JSVal × List JSVal) := []
  selfPresent : Bool := false
  selfOnmsg : Bool := false

/-- The WorkBoots constructor for a defined socksFile descriptor in
the browser environment: registers velcroAndLaces, attempts the
factory, and on a throw falls back to the asynchronous module load
(inlined here at its completion), synthesizing the mock socks when the
load fails; the ready promise resolves in every branch. -/
def mkWorkBoots (factoryThrows loadOk : Bool) (l : LoadedSocks) : Except String Sys :=
  let st0 : Sys := { bSupportsWorker := true }
  let st1 := boots_onMessage st0 .velcro
  if !factoryThrows then
    .ok { st1 with bWorker := true, bIsReady := true, bResolved := true }
  else
    let st2 := { st1 with bWorker := false, bSupportsWorker := false }
    if loadOk then do
      let st3 := { st2 with
        bSocksBound := true,
        sIsReady := l.isReady, sSentReady := l.sentReady,
        sCallback := l.hasCallback, sPosts := l.posts,
        sSelf := l.selfPresent, sSelfOnmsg := l.selfOnmsg }
      let st4 ← socks_enterBoots st3
      pure { st4 with bIsReady := true, bResolved := true }
    else
      .ok { st2 with bSocksBound := true, bMock := true, bIsReady := true, bResolved := true }

/-- The WorkBoots constructor with an undefined socksFile: the early
return leaves only the rejected ready promise behind; no callback is
registered and no readiness flag is set. -/
def mkWorkBootsNoDescriptor : Sys := { bRejection := some "no socksFile defined!" }

/-- A bridge channel brought up end to end: failing factory,
successful module load of a peer whose body registered a callback and
called ready, then an application callback registered on the
controller. -/
def bridgeChannel : Except String Sys := do
  let st ← mkWorkBoots true true { isReady := true, hasCallback := true }
  pure (boots_onMessage st .app)

/-- A mock-peer channel brought up end to end: failing factory and
failing module load, then an application callback registered on the
controller. -/
def mockChannel : Except String Sys := do
  let st ← mkWorkBoots true false {}
  pure (boots_onMessage st .app)

/-- A remote channel where the application registers its callback
right after construction and the worker-side peer only then calls
ready, after which the platform delivers the pending event. -/
def remoteSentinelScenario : Except String Sys := do
  let st ← mkWorkBoots false true {}
  let st1 := boots_onMessage st .app
  let st2 : Sys := { st1 with sSelf := true }
  let st3 ← socks_ready st2
  pure (deliverToBoots st3)

/-- The concrete echo payload used by the repository tests. -/
def pElite : JSVal := .obj [("elite", .num 31337)]

/-- Whether an Except result is a success. -/
def exceptOk : Except String Sys → Bool
  | .ok _ => true
  | .error _ => false

/-- The recovery contract of the fallback path: construction
succeeded, the ready promise resolved and was never rejected, a peer
is bound, and on a failed load that peer is the synthesized mock. -/
def fallbackRecovered (loadOk : Bool) (r : Except String Sys) : Bool :=
  match r with
  | .ok st => st.bResolved && st.bRejection.isNone && st.bSocksBound && (loadOk || st.bMock)
  | .error _ => false

/-- An envelope payload, the shape the no-double-wrapping property
quantifies over, at the concrete inner value seven. -/
def env7 : JSVal := mkData (.num 7)

/-- A controller state whose worker handle and internal listener are
both still wired to velcroAndLaces, with one pending sentinel event. -/
def stW2 : Sys := { toBoots := [sentinel], bWorkerOnmsg := some .velcro, bCallback := some .velcro }

/-- An adopted, not yet ready peer with two queued posts and an
application callback on the controller side. -/
def stW3 : Sys := { bCallback := some .app, sPosts := [(JSVal.num 1, JSVal.undefv, []), (JSVal.num 2, JSVal.undefv, [])], sBootsBound := true }

/-- An adopted, not yet ready peer whose pending queue holds a null
payload between two numeric ones, with an application callback on the
controller side. -/
def stC3null : Sys := { bCallback := some .app, sPosts := [(JSVal.num 1, JSVal.undefv, []), (JSVal.nullv, JSVal.undefv, []), (JSVal.num 2, JSVal.undefv, [])], sBootsBound := true }

/-- A not yet ready controller with an application callback. -/
def stW6 : Sys := { bCallback := some .app }

/-- A peer holding a live host reference with a handler installed,
already marked ready but with the sentinel unsent, about to be
adopted by a controller whose internal listener is registered. -/
def stW8 : Sys := { bCallback := some .velcro, sSelf := true, sSelfOnmsg := true, sIsReady := true }

/-- A channel state with callbacks registered on both sides. -/
def stW9 : Sys := { bCallback := some .app, sCallback := true }

/-! Helper lemmas about the embedded operations. -/

theorem socksWrap_ok (d : JSVal) (hd : d ≠ JSVal.nullv) :
    socksWrap d = .ok (socksWrapOk d) := by
  cases d <;> simp_all [socksWrap, socksWrapOk]

theorem getField_mkData (x : JSVal) : getField (mkData x) "data" = x := rfl

theorem isSentinel_socksWrapOk (d : JSVal) : isSentinel (socksWrapOk d) = false := by
  cases d <;> simp only [socksWrapOk] <;> first
    | rfl
    | (split <;> rfl)

/-- A single re-post step in the bridge with the application callback
registered on the controller: the wrapped message is delivered inside
a fresh envelope. -/
theorem socks_postMessage_bridge_app (st : Sys) (d o : JSVal) (t : List JSVal)
    (hr : st.sIsReady = true) (hs : st.sSelf = false) (hb : st.sBootsBound = true)
    (hc : st.bCallback = some .app) (hd : d ≠ JSVal.nullv) :
    socks_postMessage st d o t =
      .ok { st with bAppTrace := st.bAppTrace ++ [[mkData (socksWrapOk d)]] } := by
  simp [socks_postMessage, hr, hs, hb, hc, socks_isWorkerSupported,
    socksWrap_ok d hd, boots_onMessageLocal, invokeBCb, Except.bind]
  rfl

theorem except_bind_ok {α β γ : Type} (a : β) (f : β → Except α γ) :
    (Except.ok a : Except α β) >>= f = f a := rfl

/-- Draining a queue through the adopted bridge with the application
callback registered delivers one fresh envelope per queued tuple, in
queue order. -/
theorem drainPosts_bridge_app (q : List (JSVal × JSVal × List JSVal)) :
    ∀ st : Sys, st.sIsReady = true → st.sSelf = false → st.sBootsBound = true →
    st.bCallback = some .app → (∀ t ∈ q, t.1 ≠ JSVal.nullv) →
    drainPosts st q =
      .ok { st with bAppTrace := st.bAppTrace ++ q.map (fun t => [mkData (socksWrapOk t.1)]) } := by
  induction q with
  | nil =>
    intro st hr hs hb hc _
    simp [drainPosts]
  | cons t rest ih =>
    intro st hr hs hb hc hq
    have hd : t.1 ≠ JSVal.nullv := hq t (List.mem_cons_self t rest)
    have hstep := socks_postMessage_bridge_app st t.1 t.2.1 t.2.2 hr hs hb hc hd
    have hrest := ih { st with bAppTrace := st.bAppTrace ++ [[mkData (socksWrapOk t.1)]] }
      hr hs hb hc (fun u hu => hq u (List.mem_cons_of_mem t hu))
    simp [drainPosts, hstep, except_bind_ok, hrest]

/-- The peer-side control fields that a ready-mode dispatch step never
touches, relative to a base state. -/
def sameCore (st st2 : Sys) (cb : BCb) : Prop :=
  st2.sIsReady = true ∧ st2.sBootsBound = true ∧ st2.bCallback = some cb ∧
  st2.sSelf = st.sSelf ∧ st2.sSelfOnmsg = st.sSelfOnmsg ∧
  st2.sSentReady = st.sSentReady ∧ st2.sPosts = st.sPosts ∧
  st2.sCallback = st.sCallback ∧ st2.bRejection = st.bRejection ∧
  st2.bSocksBound = st.bSocksBound ∧ st2.bMock = st.bMock

/-- A ready-mode dispatch step succeeds under either dispatch branch
and leaves the control fields alone. -/
theorem socks_postMessage_ready_pres (st : Sys) (d o : JSVal) (t : List JSVal) (cb : BCb)
    (hr : st.sIsReady = true) (hb : st.sBootsBound = true) (hc : st.bCallback = some cb)
    (hd : d ≠ JSVal.nullv) :
    ∃ st2, socks_postMessage st d o t = .ok st2 ∧ sameCore st st2 cb := by
  have hw := socksWrap_ok d hd
  cases hs : st.sSelf with
  | true =>
    refine ⟨{ st with toBoots := st.toBoots ++ [firstTruthy [d, o, transferArg t]] }, ?_, ?_⟩
    · simp [socks_postMessage, hr, hs, socks_isWorkerSupported, hw, except_bind_ok]
    · simp [sameCore, hr, hb, hc]
  | false =>
    cases cb with
    | velcro =>
      refine ⟨{ st with bReceived := st.bReceived ++ [[mkData (socksWrapOk d)]] }, ?_, ?_⟩
      · simp [socks_postMessage, hr, hs, hb, hc, socks_isWorkerSupported, hw,
          except_bind_ok, boots_onMessageLocal, invokeBCb, getField_mkData,
          isSentinel_socksWrapOk]
      · simp [sameCore, hr, hb, hc]
    | app =>
      refine ⟨{ st with bAppTrace := st.bAppTrace ++ [[mkData (socksWrapOk d)]] }, ?_, ?_⟩
      · simp [socks_postMessage, hr, hs, hb, hc, socks_isWorkerSupported, hw,
          except_bind_ok, boots_onMessageLocal, invokeBCb]
      · simp [sameCore, hr, hb, hc]

/-- Draining any queue of non-null payloads in ready mode succeeds and
leaves the control fields alone. -/
theorem drainPosts_pres (q : List (JSVal × JSVal × List JSVal)) :
    ∀ st : Sys, ∀ cb : BCb, st.sIsReady = true → st.sBootsBound = true →
    st.bCallback = some cb → (∀ t ∈ q, t.1 ≠ JSVal.nullv) →
    ∃ st2, drainPosts st q = .ok st2 ∧ sameCore st st2 cb := by
  induction q with
  | nil =>
    intro st cb hr hb hc _
    exact ⟨st, rfl, hr, hb, hc, rfl, rfl, rfl, rfl, rfl, rfl, rfl, rfl⟩
  | cons t rest ih =>
    intro st cb hr hb hc hq
    obtain ⟨st1, hstep, h1, h2, h3, h4, h5, h6, h7, h8, h9, h10, h11⟩ :=
      socks_postMessage_ready_pres st t.1 t.2.1 t.2.2 cb hr hb hc
        (hq t (List.mem_cons_self t rest))
    obtain ⟨st2, hdrain, g1, g2, g3, g4, g5, g6, g7, g8, g9, g10, g11⟩ :=
      ih st1 cb h1 h2 h3 (fun u hu => hq u (List.mem_cons_of_mem t hu))
    refine ⟨st2, ?_, g1, g2, g3, ?_, ?_, ?_, ?_, ?_, ?_, ?_, ?_⟩
    · simp [drainPosts, hstep, except_bind_ok, hdrain]
    · rw [g4, h4]
    · rw [g5, h5]
    · rw [g6, h6]
    · rw [g7, h7]
    · rw [g8, h8]
    · rw [g9, h9]
    · rw [g10, h10]
    · rw [g11, h11]

/-- Processing the queue with the sent flag set drains and clears it,
preserving the control fields. -/
theorem processReady_sent (st : Sys) (cb : BCb)
    (hsent : st.sSentReady = true) (hr : st.sIsReady = true)
    (hb : st.sBootsBound = true) (hc : st.bCallback = some cb)
    (hq : ∀ t ∈ st.sPosts, t.1 ≠ JSVal.nullv) :
    ∃ st2, socks_processReadyMessages st = .ok st2 ∧
      st2.sPosts = [] ∧ st2.sSentReady = true ∧ st2.sIsReady = true ∧
      st2.sSelf = st.sSelf ∧ st2.sSelfOnmsg = st.sSelfOnmsg ∧
      st2.sBootsBound = true ∧ st2.bCallback = some cb ∧
      st2.sCallback = st.sCallback ∧ st2.bRejection = st.bRejection ∧
      st2.bSocksBound = st.bSocksBound ∧ st2.bMock = st.bMock := by
  obtain ⟨st1, hdrain, p1, p2, p3, p4, p5, p6, p7, p8, p9, p10, p11⟩ :=
    drainPosts_pres st.sPosts st cb hr hb hc hq
  refine ⟨{ st1 with sPosts := [] }, ?_, rfl, ?_, p1, p4, p5, p2, p3, p8, p9, p10, p11⟩
  · simp [socks_processReadyMessages, hsent, hdrain, except_bind_ok]
  · exact p6.trans hsent

/-- Calling ready on an adopted peer whose controller has a callback
always succeeds, records the sentinel as sent, and empties the queue,
whatever the host reference and readiness flag say. -/
theorem socks_ready_pres (st : Sys) (cb : BCb)
    (hb : st.sBootsBound = true) (hc : st.bCallback = some cb)
    (hq : ∀ t ∈ st.sPosts, t.1 ≠ JSVal.nullv) :
    ∃ st2, socks_ready st = .ok st2 ∧
      st2.sSentReady = true ∧ st2.sIsReady = true ∧
      st2.sSelf = st.sSelf ∧ st2.sSelfOnmsg = st.sSelfOnmsg ∧
      st2.sBootsBound = true ∧ st2.bCallback = some cb ∧
      st2.sPosts = [] ∧ st2.sCallback = st.sCallback ∧
      st2.bRejection = st.bRejection ∧ st2.bSocksBound = st.bSocksBound ∧
      st2.bMock = st.bMock := by
  cases hs : st.sSelf with
  | true =>
    cases hr : st.sIsReady with
    | true =>
      have heq : socks_ready st = socks_processReadyMessages
          { st with
            toBoots := st.toBoots ++ [firstTruthy [sentinel, .undefv, transferArg []]]
            sSentReady := true
            sIsReady := true } := by
        simp [socks_ready, socks_postMessage, hr, hs, socks_isWorkerSupported,
          socksWrap, sentinel, except_bind_ok]
      obtain ⟨st2, hpr, q1, q2, q3, q4, q5, q6, q7, q8, q9, q10, q11⟩ :=
        processReady_sent
          { st with
            toBoots := st.toBoots ++ [firstTruthy [sentinel, .undefv, transferArg []]]
            sSentReady := true
            sIsReady := true } cb rfl rfl hb hc hq
      exact ⟨st2, heq.trans hpr, q2, q3, q4.trans hs, q5, q6, q7, q1, q8, q9, q10, q11⟩
    | false =>
      have hq2 : ∀ t ∈ st.sPosts ++ [(sentinel, JSVal.undefv, ([] : List JSVal))],
          t.1 ≠ JSVal.nullv := by
        intro t ht
        rcases List.mem_append.mp ht with h | h
        · exact hq t h
        · simp only [List.mem_singleton] at h
          subst h
          simp [sentinel]
      have heq : socks_ready st = socks_processReadyMessages
          { st with
            sPosts := st.sPosts ++ [(sentinel, JSVal.undefv, ([] : List JSVal))]
            sSentReady := true
            sIsReady := true } := by
        simp [socks_ready, socks_postMessage, hr, hs, socks_isWorkerSupported,
          except_bind_ok]
      obtain ⟨st2, hpr, q1, q2, q3, q4, q5, q6, q7, q8, q9, q10, q11⟩ :=
        processReady_sent
          { st with
            sPosts := st.sPosts ++ [(sentinel, JSVal.undefv, ([] : List JSVal))]
            sSentReady := true
            sIsReady := true } cb rfl rfl hb hc hq2
      exact ⟨st2, heq.trans hpr, q2, q3, q4.trans hs, q5, q6, q7, q1, q8, q9, q10, q11⟩
  | false =>
    cases cb with
    | velcro =>
      have heq : socks_ready st = socks_processReadyMessages
          { st with
            bResolved := true
            sSentReady := true
            sIsReady := true } := by
        simp [socks_ready, socks_isWorkerSupported, hs, hb, hc,
          boots_onMessageLocal, invokeBCb, getField_mkData, sentinel, isSentinel,
          except_bind_ok]
      obtain ⟨st2, hpr, q1, q2, q3, q4, q5, q6, q7, q8, q9, q10, q11⟩ :=
        processReady_sent
          { st with
            bResolved := true
            sSentReady := true
            sIsReady := true } BCb.velcro rfl rfl hb hc hq
      exact ⟨st2, heq.trans hpr, q2, q3, q4.trans hs, q5, q6, q7, q1, q8, q9, q10, q11⟩
    | app =>
      have heq : socks_ready st = socks_processReadyMessages
          { st with
            bAppTrace := st.bAppTrace ++ [[mkData sentinel]]
            sSentReady := true
            sIsReady := true } := by
        simp [socks_ready, socks_isWorkerSupported, hs, hb, hc,
          boots_onMessageLocal, invokeBCb, except_bind_ok]
      obtain ⟨st2, hpr, q1, q2, q3, q4, q5, q6, q7, q8, q9, q10, q11⟩ :=
        processReady_sent
          { st with
            bAppTrace := st.bAppTrace ++ [[mkData sentinel]]
            sSentReady := true
            sIsReady := true } BCb.app rfl rfl hb hc hq
      exact ⟨st2, heq.trans hpr, q2, q3, q4.trans hs, q5, q6, q7, q1, q8, q9, q10, q11⟩

/-- Adoption of a peer by a controller that has a callback registered:
the postconditions of Socks.enterBoots. -/
theorem socks_enterBoots_spec (st : Sys) (cb : BCb)
    (hc : st.bCallback = some cb)
    (hq : ∀ t ∈ st.sPosts, t.1 ≠ JSVal.nullv) :
    ∃ st2, socks_enterBoots st = .ok st2 ∧
      st2.sBootsBound = true ∧ st2.sSelf = false ∧ st2.sSelfOnmsg = false ∧
      st2.bRejection = st.bRejection ∧ st2.bSocksBound = st.bSocksBound ∧
      st2.bMock = st.bMock ∧ st2.bCallback = some cb ∧
      (st.sIsReady = true → st.sSentReady = false → st2.sSentReady = true) ∧
      (st.sSelf = true → st.sSelfOnmsg = true → st2.sCallback = true) := by
  cases hcond : st.sIsReady && !st.sSentReady with
  | true =>
    obtain ⟨stR, hready, p1, p2, p3, p4, p5, p6, p7, p8, p9, p10, p11⟩ :=
      socks_ready_pres { st with sBootsBound := true } cb rfl hc hq
    cases hcap : stR.sSelf && stR.sSelfOnmsg with
    | true =>
      obtain ⟨hx, hy⟩ : stR.sSelf = true ∧ stR.sSelfOnmsg = true := by
        simpa using hcap
      refine ⟨{ stR with sCallback := true, sSelf := false, sSelfOnmsg := false },
        ?_, p5, rfl, rfl, p9, p10, p11, p6, fun _ _ => p1, fun _ _ => rfl⟩
      simp [socks_enterBoots, hcond, hready, hx, hy, except_bind_ok]
    | false =>
      have hnot : ¬(stR.sSelf = true ∧ stR.sSelfOnmsg = true) := by
        intro h
        simp [h.1, h.2] at hcap
      refine ⟨{ stR with sSelf := false, sSelfOnmsg := false },
        ?_, p5, rfl, rfl, p9, p10, p11, p6, fun _ _ => p1, ?_⟩
      · simp [socks_enterBoots, hcond, hready, hnot, except_bind_ok]
      · intro h1 h2
        exact absurd ⟨p3.trans h1, p4.trans h2⟩ hnot
  | false =>
    cases hcap : st.sSelf && st.sSelfOnmsg with
    | true =>
      obtain ⟨hx, hy⟩ : st.sSelf = true ∧ st.sSelfOnmsg = true := by
        simpa using hcap
      refine ⟨{ st with
          sBootsBound := true
          sCallback := true
          sSelf := false
          sSelfOnmsg := false },
        ?_, rfl, rfl, rfl, rfl, rfl, rfl, hc, ?_, fun _ _ => rfl⟩
      · simp [socks_enterBoots, hcond, hx, hy, except_bind_ok, pure, Except.pure]
      · intro h1 h2
        exfalso
        simp [h1, h2] at hcond
    | false =>
      have hnot : ¬(st.sSelf = true ∧ st.sSelfOnmsg = true) := by
        intro h
        simp [h.1, h.2] at hcap
      refine ⟨{ st with
          sBootsBound := true
          sSelf := false
          sSelfOnmsg := false },
        ?_, rfl, rfl, rfl, rfl, rfl, rfl, hc, ?_, ?_⟩
      · simp [socks_enterBoots, hcond, hnot, except_bind_ok, pure, Except.pure]
      · intro h1 h2
        exfalso
        simp [h1, h2] at hcond
      · intro h1 h2
        exact absurd ⟨h1, h2⟩ hnot

/-! Claim theorems. -/

/-- Claim C1: the wrap and unwrap round trip is claimed to hand the
registered callback an argument whose data field equals the posted
payload on every delivery path.  The code violates this on the bridge
path from Peer to Controller: Socks.postMessage already wraps the
payload and WorkBoots.onMessageLocal wraps that envelope again, so the
callback argument carries the envelope of the payload in its data
field, not the payload.  The final conjunct shows the synthesized mock
peer of the same constructor delivering the intended single envelope
on the mirror path, which is the behaviour the claim describes. -/
theorem c1_bridge_roundtrip_double_wraps :
    (bridgeChannel.bind (fun st => socks_postMessage st pElite .undefv [])).map
        (fun st => st.bAppTrace) = .ok [[mkData (mkData pElite)]]
    ∧ getField (mkData (mkData pElite)) "data" = mkData pElite
    ∧ mkData pElite ≠ pElite
    ∧ (mockChannel.bind (fun st => boots_postMessage st pElite .undefv [])).map
        (fun st => st.bAppTrace) = .ok [[mkData pElite]] := by
  refine ⟨rfl, rfl, ?_, rfl⟩
  simp [mkData, pElite]

/-- Claim C2, counterexample: a remote channel whose application
callback was registered before the peer sent the sentinel delivers the
sentinel envelope straight to that callback, so the sentinel is
observed by an application-registered callback. -/
theorem c2_sentinel_reaches_app_counterexample :
    remoteSentinelScenario.map (fun st => st.bAppTrace) = .ok [[mkData sentinel]]
    ∧ isSentinel (getField (mkData sentinel) "data") = true :=
  ⟨rfl, rfl⟩

/-- Claim C2, amended: the sentinel is consumed internally exactly
when the internal readiness listener velcroAndLaces is still the
handler in place at delivery time, on both the remote event path and
the bridge path; with an application callback installed instead, no
interception happens. -/
theorem c2_sentinel_consumed_by_internal_listener :
    (∀ st : Sys, ∀ rest : List JSVal, st.toBoots = sentinel :: rest →
       st.bWorkerOnmsg = some .velcro →
       deliverToBoots st = { st with bResolved := true, toBoots := rest })
    ∧ (∀ st : Sys, ∀ o : JSVal, ∀ t : List JSVal, st.bCallback = some .velcro →
       boots_onMessageLocal st sentinel o t = .ok { st with bResolved := true }) := by
  constructor
  · intro st rest h1 h2
    simp [deliverToBoots, h1, h2, invokeBCb, getField_mkData, sentinel, isSentinel]
  · intro st o t h
    simp [boots_onMessageLocal, h, invokeBCb, getField_mkData, sentinel, isSentinel]

/-- Claim C2, witness for the amended theorem at a concrete state. -/
theorem c2_sentinel_consumed_witness :
    deliverToBoots stW2 = { stW2 with bResolved := true, toBoots := [] }
    ∧ boots_onMessageLocal stW2 sentinel JSVal.undefv [] = .ok { stW2 with bResolved := true } :=
  ⟨c2_sentinel_consumed_by_internal_listener.1 stW2 [] rfl rfl,
   c2_sentinel_consumed_by_internal_listener.2 stW2 JSVal.undefv [] rfl⟩

/-- Claim C3, counterexample: the original claim quantifies over
every queued tuple, but a null payload queued before readiness makes
the envelope computation throw a TypeError in the middle of the
forEach re-post, so the tuple after it is never re-posted and the
assignment clearing postsBeforeReady never executes: the drain is not
each-exactly-once and the queue is not cleared. -/
theorem c3_counterexample_null_payload_aborts_drain :
    stC3null.sPosts.length = 3
    ∧ (stC3null.sPosts.map (fun t => t.1)) = [JSVal.num 1, JSVal.nullv, JSVal.num 2]
    ∧ socks_ready stC3null = .error "TypeError: cannot use in operator on null" :=
  ⟨rfl, rfl, rfl⟩

/-- Claim C3, amended: every tuple posted to the peer before
readiness is appended to the pending queue and nothing is dispatched;
a ready call on an adopted bridge peer sends the sentinel and then,
provided no queued payload is null, re-posts every queued tuple in
queue order, each once, and clears the queue; a ready call on a peer
that is neither remote capable nor adopted only marks readiness and
leaves the queue untouched.  The null proviso is forced by the
counterexample below: typeof null is object, so the in operator of
the envelope computation throws on a queued null mid-drain. -/
theorem c3_peer_queue_fifo :
    (∀ st : Sys, ∀ d o : JSVal, ∀ t : List JSVal, st.sIsReady = false →
       socks_postMessage st d o t = .ok { st with sPosts := st.sPosts ++ [(d, o, t)] })
    ∧ (∀ st : Sys, st.sIsReady = false → st.sSentReady = false → st.sSelf = false →
         st.sBootsBound = true → st.bCallback = some .app →
         (∀ t ∈ st.sPosts, t.1 ≠ JSVal.nullv) →
         socks_ready st = .ok { st with
           bAppTrace := st.bAppTrace ++ [[mkData sentinel]] ++
             st.sPosts.map (fun t => [mkData (socksWrapOk t.1)])
           sPosts := []
           sIsReady := true
           sSentReady := true })
    ∧ (∀ st : Sys, st.sSentReady = false → st.sSelf = false →
         st.sBootsBound = false → socks_ready st = .ok { st with sIsReady := true }) := by
  refine ⟨?_, ?_, ?_⟩
  · intro st d o t h
    simp [socks_postMessage, h]
  · intro st h1 h2 h3 h4 h5 h6
    have heq : socks_ready st = socks_processReadyMessages
        { st with
          bAppTrace := st.bAppTrace ++ [[mkData sentinel]]
          sSentReady := true
          sIsReady := true } := by
      simp [socks_ready, socks_isWorkerSupported, h3, h4, h5,
        boots_onMessageLocal, invokeBCb, getField_mkData, sentinel, isSentinel,
        except_bind_ok]
    have hdrain := drainPosts_bridge_app st.sPosts
      { st with
        bAppTrace := st.bAppTrace ++ [[mkData sentinel]]
        sSentReady := true
        sIsReady := true } rfl h3 h4 h5 h6
    rw [heq]
    simp [socks_processReadyMessages, hdrain, except_bind_ok]
  · intro st h2 h3 h4
    simp [socks_ready, socks_isWorkerSupported, h3, h4,
      socks_processReadyMessages, h2, except_bind_ok, pure, Except.pure]

/-- Claim C3, witness at concrete states: one enqueue, one drain of a
two-element queue, one no-drain ready call. -/
theorem c3_peer_queue_fifo_witness :
    socks_postMessage ({} : Sys) (JSVal.num 5) JSVal.undefv [] =
      .ok { ({} : Sys) with sPosts := [(JSVal.num 5, JSVal.undefv, [])] }
    ∧ socks_ready stW3 = .ok { stW3 with
        bAppTrace := [[mkData sentinel], [mkData (mkData (JSVal.num 1))],
          [mkData (mkData (JSVal.num 2))]]
        sPosts := []
        sIsReady := true
        sSentReady := true }
    ∧ socks_ready ({} : Sys) = .ok { ({} : Sys) with sIsReady := true } :=
  ⟨c3_peer_queue_fifo.1 ({} : Sys) (JSVal.num 5) JSVal.undefv [] rfl,
   c3_peer_queue_fifo.2.1 stW3 rfl rfl rfl rfl rfl (by
     intro t ht
     simp [stW3] at ht
     rcases ht with h | h <;> subst h <;> simp),
   c3_peer_queue_fifo.2.2 ({} : Sys) rfl rfl rfl⟩

/-- Claim C4: with a throwing worker factory the constructor falls
back to loading the peer module; whether that load succeeds or fails
(in which case the stand-in mock peer is bound), construction
succeeds, the ready promise resolves and is never rejected, and a peer
is bound, so the channel reaches the ready state. -/
theorem c4_fallback_ready_resolves (loadOk : Bool) (l : LoadedSocks)
    (h : ∀ t ∈ l.posts, t.1 ≠ JSVal.nullv) :
    fallbackRecovered loadOk (mkWorkBoots true loadOk l) = true := by
  cases loadOk with
  | false => rfl
  | true =>
    obtain ⟨st2, heq, q1, q2, q3, q4, q5, q6, q7, q8, q9⟩ :=
      socks_enterBoots_spec
        ({ bCallback := some .velcro, bSocksBound := true,
           sIsReady := l.isReady, sSentReady := l.sentReady,
           sCallback := l.hasCallback, sPosts := l.posts,
           sSelf := l.selfPresent, sSelfOnmsg := l.selfOnmsg } : Sys) .velcro rfl h
    have hunfold : mkWorkBoots true true l =
        socks_enterBoots
          ({ bCallback := some .velcro, bSocksBound := true,
             sIsReady := l.isReady, sSentReady := l.sentReady,
             sCallback := l.hasCallback, sPosts := l.posts,
             sSelf := l.selfPresent, sSelfOnmsg := l.selfOnmsg } : Sys) >>=
          fun st4 => pure { st4 with bIsReady := true, bResolved := true } := rfl
    rw [hunfold, heq]
    simp [fallbackRecovered, except_bind_ok, pure, Except.pure, q4, q5]

/-- Claim C4, witness at both load outcomes with a fresh peer. -/
theorem c4_fallback_ready_resolves_witness :
    fallbackRecovered true (mkWorkBoots true true {}) = true
    ∧ fallbackRecovered false (mkWorkBoots true false {}) = true :=
  ⟨c4_fallback_ready_resolves true {} (by simp),
   c4_fallback_ready_resolves false {} (by simp)⟩

/-- Claim C5, counterexample: after construction with an undefined
descriptor, postMessage throws a TypeError, because the early return
left no message callback registered and the pre-ready path calls it
unconditionally, so postMessage is not a safe no-op as claimed. -/
theorem c5_counterexample_postMessage_throws :
    boots_postMessage mkWorkBootsNoDescriptor (JSVal.obj []) .undefv [] =
      .error "TypeError: this.onMessageCallback is not a function" := rfl

/-- Claim C5, amended: on a missing descriptor the constructor
completes without throwing, the stored ready promise is rejected with
the descriptive error (every ready call returns that same promise),
and terminate is a safe no-op, but postMessage throws a TypeError. -/
theorem c5_missing_descriptor_contract :
    mkWorkBootsNoDescriptor.bRejection = some "no socksFile defined!"
    ∧ boots_terminate mkWorkBootsNoDescriptor = .ok mkWorkBootsNoDescriptor
    ∧ boots_postMessage mkWorkBootsNoDescriptor (JSVal.str "ping") .undefv [] =
        .error "TypeError: this.onMessageCallback is not a function" :=
  ⟨rfl, rfl, rfl⟩

/-- Claim C6, counterexample: a controller that is not ready and has
no registered callback is reachable (undefined descriptor), and
postMessage on it throws instead of never throwing. -/
theorem c6_counterexample_missing_callback_throws :
    mkWorkBootsNoDescriptor.bIsReady = false
    ∧ mkWorkBootsNoDescriptor.bCallback = none
    ∧ boots_postMessage mkWorkBootsNoDescriptor (JSVal.obj [("x", JSVal.num 1)]) .undefv [] =
        .error "TypeError: this.onMessageCallback is not a function" :=
  ⟨rfl, rfl, rfl⟩

/-- Claim C6, amended: before readiness postMessage forwards the raw
argument triple synchronously to the registered application callback
and touches neither the worker channel nor the peer; when no callback
is registered the same call throws a TypeError. -/
theorem c6_preready_shortcircuit :
    (∀ st : Sys, ∀ d o : JSVal, ∀ t : List JSVal, st.bIsReady = false →
       st.bCallback = some .app →
       boots_postMessage st d o t =
         .ok { st with bAppTrace := st.bAppTrace ++ [[d, o, .arr t]] })
    ∧ (∀ st : Sys, ∀ d o : JSVal, ∀ t : List JSVal, st.bIsReady = false →
       st.bCallback = none →
       boots_postMessage st d o t =
         .error "TypeError: this.onMessageCallback is not a function") := by
  constructor
  · intro st d o t h1 h2
    simp [boots_postMessage, h1, invokeBootsCallback, h2, invokeBCb]
  · intro st d o t h1 h2
    simp [boots_postMessage, h1, invokeBootsCallback, h2]

/-- Claim C6, witness at concrete states for both conjuncts. -/
theorem c6_preready_shortcircuit_witness :
    boots_postMessage stW6 (JSVal.num 9) JSVal.undefv [] =
      .ok { stW6 with bAppTrace := [[JSVal.num 9, JSVal.undefv, JSVal.arr []]] }
    ∧ boots_postMessage ({} : Sys) (JSVal.num 9) JSVal.undefv [] =
        .error "TypeError: this.onMessageCallback is not a function" :=
  ⟨c6_preready_shortcircuit.1 stW6 (JSVal.num 9) JSVal.undefv [] rfl rfl,
   c6_preready_shortcircuit.2 ({} : Sys) (JSVal.num 9) JSVal.undefv [] rfl rfl⟩

/-- Claim C7: round-tripping a payload already shaped as an envelope
is claimed to reach the callback unchanged.  On the bridge path from
Peer to Controller the callback instead receives the envelope wrapped
once more; the wrap step itself passes the payload through unchanged,
and the mirror bridge path from Controller to Peer does deliver the
envelope unchanged, as the final conjunct shows. -/
theorem c7_envelope_payload_double_wrapped :
    (bridgeChannel.bind (fun st => socks_postMessage st env7 .undefv [])).map
        (fun st => st.bAppTrace) = .ok [[mkData env7]]
    ∧ mkData env7 ≠ env7
    ∧ (bridgeChannel.bind (fun st => boots_postMessage st env7 .undefv [])).map
        (fun st => st.sAppTrace) = .ok [[env7]] := by
  refine ⟨rfl, ?_, rfl⟩
  simp [mkData, env7]

/-- Claim C8: after enterBoots the controller reference is bound, the
host reference is discarded so worker support reads false and every
later dispatch takes the bridge branch, the ready and adopt race
triggers the sentinel send, and a pre-existing host message handler is
captured as the local callback. -/
theorem c8_enterBoots_postconditions (st : Sys) (cb : BCb)
    (hc : st.bCallback = some cb)
    (hq : ∀ t ∈ st.sPosts, t.1 ≠ JSVal.nullv) :
    ∃ st2, socks_enterBoots st = .ok st2 ∧
      st2.sBootsBound = true ∧ st2.sSelf = false ∧
      socks_isWorkerSupported st2 = false ∧
      (st.sIsReady = true → st.sSentReady = false → st2.sSentReady = true) ∧
      (st.sSelf = true → st.sSelfOnmsg = true → st2.sCallback = true) := by
  obtain ⟨st2, heq, q1, q2, q3, q4, q5, q6, q7, q8, q9⟩ :=
    socks_enterBoots_spec st cb hc hq
  refine ⟨st2, heq, q1, q2, ?_, q8, q9⟩
  simp [socks_isWorkerSupported, q2]

/-- Claim C8, witness: a ready peer with a live host handler, adopted
while the sentinel is still unsent. -/
theorem c8_enterBoots_postconditions_witness :
    ∃ st2, socks_enterBoots stW8 = .ok st2 ∧
      st2.sBootsBound = true ∧ st2.sSelf = false ∧
      socks_isWorkerSupported st2 = false ∧
      (stW8.sIsReady = true → stW8.sSentReady = false → st2.sSentReady = true) ∧
      (stW8.sSelf = true → stW8.sSelfOnmsg = true → st2.sCallback = true) :=
  c8_enterBoots_postconditions stW8 .velcro rfl (by simp [stW8])

/-- Claim C9: onMessageLocal on either side throws exactly when no
callback is registered, and with a callback registered it delivers the
message to that callback and returns normally. -/
theorem c9_onMessageLocal_throws_iff_no_callback :
    (∀ st : Sys, ∀ d o : JSVal, ∀ t : List JSVal,
       (exceptOk (boots_onMessageLocal st d o t) = false ↔ st.bCallback = none) ∧
       (∀ cb, st.bCallback = some cb →
         boots_onMessageLocal st d o t = .ok (invokeBCb st cb [mkData d])))
    ∧ (∀ st : Sys, ∀ d o : JSVal, ∀ t : List JSVal,
       (exceptOk (socks_onMessageLocal st d o t) = false ↔ st.sCallback = false) ∧
       (st.sCallback = true →
         socks_onMessageLocal st d o t = .ok { st with sAppTrace := st.sAppTrace ++ [[d]] })) := by
  constructor
  · intro st d o t
    constructor
    · cases h : st.bCallback <;> simp [boots_onMessageLocal, h, exceptOk]
    · intro cb hcb
      simp [boots_onMessageLocal, hcb]
  · intro st d o t
    constructor
    · cases h : st.sCallback <;> simp [socks_onMessageLocal, h, exceptOk]
    · intro h
      simp [socks_onMessageLocal, h]

/-- Claim C9, witness: the empty state throws on both sides, and the
state with callbacks delivers on both sides. -/
theorem c9_onMessageLocal_witness :
    (exceptOk (boots_onMessageLocal ({} : Sys) (JSVal.num 3) JSVal.undefv []) = false ↔
      ({} : Sys).bCallback = none)
    ∧ boots_onMessageLocal stW9 (JSVal.num 3) JSVal.undefv [] =
        .ok (invokeBCb stW9 .app [mkData (JSVal.num 3)])
    ∧ socks_onMessageLocal stW9 (JSVal.num 3) JSVal.undefv [] =
        .ok { stW9 with sAppTrace := [[JSVal.num 3]] } :=
  ⟨(c9_onMessageLocal_throws_iff_no_callback.1 ({} : Sys) (JSVal.num 3) JSVal.undefv []).1,
   (c9_onMessageLocal_throws_iff_no_callback.1 stW9 (JSVal.num 3) JSVal.undefv []).2 .app rfl,
   (c9_onMessageLocal_throws_iff_no_callback.2 stW9 (JSVal.num 3) JSVal.undefv []).2 rfl⟩

/-- Claim C10: when the factory returns a handle without throwing the
ready promise resolves during construction, with the event channel
empty, nothing delivered or queued on the controller, and the peer
sentinel not yet sent, so readiness of the controller does not imply
the peer has signalled readiness. -/
theorem c10_remote_resolves_before_any_message (loadOk : Bool) (l : LoadedSocks) :
    ∃ st, mkWorkBoots false loadOk l = .ok st ∧ st.bResolved = true ∧
      st.bRejection = none ∧ st.toBoots = [] ∧ st.bAppTrace = [] ∧
      st.bReceived = [] ∧ st.sSentReady = false :=
  ⟨_, rfl, rfl, rfl, rfl, rfl, rfl, rfl⟩
